import Mathlib

/- A verification development of the NeerChitra priority-scoring and
classification engine (src/app.py, `generate_comprehensive_data` and the
dashboard aggregates built on its output).

Modelling conventions: Python floats are exact rationals (ℚ).  The Python
built-in `round(x, 1)` is `rnd1` (round-half-to-even at one decimal).  pandas
`Series.mean()` — which returns NaN on an empty series rather than raising —
is modelled with an explicit `MeanResult.nan` value.  pandas
`DataFrame.sort_values(col, ascending=False)` routes through nargsort, which
reverses the values and the index array before taking a stable ascending
argsort and reverses the resulting indexer after; at the ten-row size this
program sorts, the numpy default sort runs as a stable insertion sort, so the
descending sort is modelled as `List.reverse`, then the stable
`List.mergeSort` (ascending), then `List.reverse` — the two reversals cancel
on tied rows, which therefore keep their input order.  `np.random.uniform(15, 65)`, drawn once per lake,
is modelled by passing the drawn values in as an explicit list argument. -/

namespace NeerChitra

open scoped List

/-- Status labels assigned by the engine (src/app.py line 343), ordered from
least to most severe. -/
inductive Status where
  | Low
  | Moderate
  | High
  | Critical
deriving DecidableEq, Repr

/-- Severity rank of a status label: `Low < Moderate < High < Critical`. -/
def sev : Status → ℕ
  | .Low => 0
  | .Moderate => 1
  | .High => 2
  | .Critical => 3

/-- The 4-tier classification of src/app.py line 343:
`"Critical" if s > 75 else "High" if s > 55 else "Moderate" if s > 35 else
"Low"`. -/
def classify4 (s : ℚ) : Status :=
  if s > 75 then .Critical
  else if s > 55 then .High
  else if s > 35 then .Moderate
  else .Low

/-- The extended-preset weighted sum of src/app.py lines 315-321. -/
def scoreExtended (deg pop flood poll enc : ℚ) : ℚ :=
  deg * 0.35 + pop / 100 * 0.25 + flood * 2.5 * 0.20 + poll * 2 * 0.15 +
    enc * 0.05

/-- The upper clamp applied by src/app.py line 322:
`priority_score = min(100, priority_score)`.  There is no lower clamp. -/
def clampScore (s : ℚ) : ℚ := min 100 s

/-- Round-half-to-even to an integer (the rounding the Python 3 built-in
`round` applies). -/
def roundHalfEven (y : ℚ) : ℤ :=
  if y - ⌊y⌋ < 1/2 then ⌊y⌋
  else if 1/2 < y - ⌊y⌋ then ⌊y⌋ + 1
  else if Even ⌊y⌋ then ⌊y⌋ else ⌊y⌋ + 1

/-- Python `round(x, 1)`: round-half-to-even at one decimal place. -/
def rnd1 (x : ℚ) : ℚ := (roundHalfEven (10 * x) : ℚ) / 10

/-- One entry of the fixed `lakes` catalog of src/app.py lines 226-299:
the fields the computation reads (`name`, `area_2019`, `pop`, `flood`,
`pollution_index`, `encroachment`; the latitude/longitude/district/type
fields are presentation-only and omitted). -/
structure LakeIn where
  name : String
  area_2019 : ℚ
  pop : ℚ
  flood : ℚ
  pollution_index : ℚ
  encroachment : ℚ
deriving DecidableEq, Repr

/-- One row of the DataFrame built by `generate_comprehensive_data`
(src/app.py lines 327-344). -/
structure ScoredLake where
  Lake : String
  Area_2019_ha : ℚ
  Area_2024_ha : ℚ
  Area_Lost_ha : ℚ
  Degradation_pct : ℚ
  Population_Density : ℚ
  Flood_Risk : ℚ
  Pollution_Index : ℚ
  Encroachment_pct : ℚ
  Priority_Score : ℚ
  Restoration_Cost_Lakhs : ℚ
  status : Status
deriving DecidableEq, Repr

/-- Per-lake `degradation` (src/app.py lines 304-310): the random draw
plus population, pollution and encroachment factors, capped at 95. -/
def degradationOf (lake : LakeIn) (draw : ℚ) : ℚ :=
  min (draw + lake.pop / 1000 * 2.5 + lake.pollution_index * 3 +
    lake.encroachment * 0.4) 95

/-- Derived `area_2024 = area_2019 * (1 - degradation/100)`
(src/app.py line 312). -/
def area2024Of (lake : LakeIn) (draw : ℚ) : ℚ :=
  lake.area_2019 * (1 - degradationOf lake draw / 100)

/-- The clamped priority score of one lake (src/app.py lines 315-322). -/
def priorityOf (lake : LakeIn) (draw : ℚ) : ℚ :=
  clampScore (scoreExtended (degradationOf lake draw) lake.pop lake.flood
    lake.pollution_index lake.encroachment)

/-- Estimated `restoration_cost` (src/app.py line 325). -/
def restorationCostOf (lake : LakeIn) (draw : ℚ) : ℚ :=
  (lake.area_2019 - area2024Of lake draw) * 0.5 * (lake.pollution_index / 5)

/-- The loop body of `generate_comprehensive_data` (src/app.py lines
302-344): build one DataFrame row from one catalog entry and one random
draw.  The reported columns are rounded to one decimal; `Status` is computed
from the unrounded clamped `priority_score`. -/
def processLake (lake : LakeIn) (draw : ℚ) : ScoredLake :=
  { Lake := lake.name
    Area_2019_ha := lake.area_2019
    Area_2024_ha := rnd1 (area2024Of lake draw)
    Area_Lost_ha := rnd1 (lake.area_2019 - area2024Of lake draw)
    Degradation_pct := rnd1 (degradationOf lake draw)
    Population_Density := lake.pop
    Flood_Risk := lake.flood
    Pollution_Index := lake.pollution_index
    Encroachment_pct := lake.encroachment
    Priority_Score := rnd1 (priorityOf lake draw)
    Restoration_Cost_Lakhs := rnd1 (restorationCostOf lake draw)
    status := classify4 (priorityOf lake draw) }

/-- Function `generate_comprehensive_data` (src/app.py lines 225-347) with the
per-lake `np.random.uniform(15, 65)` draws supplied explicitly. -/
def generate_comprehensive_data (lakes : List LakeIn) (draws : List ℚ) :
    List ScoredLake :=
  List.zipWith processLake lakes draws

/-- Ranking `df_sorted = df.sort_values(Priority_Score, ascending=False)`
(src/app.py line 576): pandas nargsort pre-reverses the rows, takes a stable
ascending argsort on the (rounded) `Priority_Score` column, and reverses the
resulting indexer, producing descending order with tied rows kept in their
input order. -/
def rank (l : List ScoredLake) : List ScoredLake :=
  (l.reverse.mergeSort (fun a b => a.Priority_Score ≤ b.Priority_Score)).reverse

/-- Aggregate `status_counts = df[Status].value_counts()` (src/app.py line 523):
one `(label, count)` entry per status value that occurs in the column,
ordered by descending count (again the pandas descending sort: pre-reverse,
stable ascending sort, post-reverse).  Labels that never occur produce no
entry. -/
def value_counts (l : List Status) : List (Status × ℕ) :=
  ((l.dedup.map (fun s => (s, l.count s))).reverse.mergeSort
    (fun p q => p.2 ≤ q.2)).reverse

/-- Result of pandas `Series.mean()`: NaN on an empty series, otherwise the
arithmetic mean. -/
inductive MeanResult where
  | nan
  | val (q : ℚ)
deriving DecidableEq, Repr

/-- pandas `Series.mean()` on a list of rationals: `sum / length` when
non-empty, NaN when empty (no exception is raised). -/
def series_mean (l : List ℚ) : MeanResult :=
  if l = [] then .nan else .val (l.sum / (l.length : ℚ))

/-- Aggregate `df[Degradation_%].mean()` (src/app.py line 437). -/
def average_degradation (df : List ScoredLake) : MeanResult :=
  series_mean (df.map (·.Degradation_pct))

/-- Aggregate `df[Area_Lost_ha].sum()` (src/app.py line 440): the sum of the
(per-row rounded) `Area_Lost_ha` column. -/
def total_area_lost (df : List ScoredLake) : ℚ :=
  (df.map (·.Area_Lost_ha)).sum

/-- The reading of `total_area_lost` asserted by the specification: the sum
of the raw, unrounded per-record differences `area_2019 - area_2024`.
Stated from the words of the spec, for comparison with `total_area_lost`. -/
def total_area_lost_raw_spec (lakes : List LakeIn) (draws : List ℚ) : ℚ :=
  (List.zipWith (fun lk d => lk.area_2019 - area2024Of lk d) lakes draws).sum

/-- Modelled from the spec: the basic weighting preset
`degradation_pct * 0.4 + (population_impact / 100) * 0.3 +
(flood_risk * 2.5) * 0.3`.  This preset appears in other iterations of the
repository that are not under src/; src/app.py itself contains only the
extended preset. -/
def scoreBasic (deg pop flood : ℚ) : ℚ :=
  deg * 0.4 + pop / 100 * 0.3 + flood * 2.5 * 0.3

/-- Modelled from the spec: the basic 3-tier classification
(`s > 70` Critical, `50 < s ≤ 70` High, `s ≤ 50` Moderate), from iterations
not under src/. -/
def classifyBasic (s : ℚ) : Status :=
  if s > 70 then .Critical
  else if s > 50 then .High
  else .Moderate

/-- The record attributes a weighting preset may read. -/
structure EngineRecord where
  degradation_pct : ℚ
  population_impact : ℚ
  flood_risk : ℚ
  pollution_index : ℚ
  encroachment_pct : ℚ
deriving DecidableEq, Repr

/-- Modelled from the spec: the two weighting schemes as named, selectable
presets (`"basic"` or `"extended"`). -/
inductive Preset where
  | basic
  | extended
deriving DecidableEq, Repr

/-- Modelled from the spec: `score(record, weights)` dispatching on the
selected preset. -/
def score (p : Preset) (r : EngineRecord) : ℚ :=
  match p with
  | .basic => scoreBasic r.degradation_pct r.population_impact r.flood_risk
  | .extended => scoreExtended r.degradation_pct r.population_impact
      r.flood_risk r.pollution_index r.encroachment_pct

/-- Claim C1: for every lake record with non-negative attributes the
extended-preset score equals
`degradation_pct * 0.35 + (population_impact / 100) * 0.25 +
(flood_risk * 2.5) * 0.20 + (pollution_index * 2) * 0.15 +
encroachment_pct * 0.05`, clamped above to `min(100, score)` before
classification; the raw score is never negative, and no lower clamp is
applied. -/
theorem extended_score_formula_and_clamp (deg pop flood poll enc : ℚ)
    (hd : 0 ≤ deg) (hp : 0 ≤ pop) (hf : 0 ≤ flood) (hq : 0 ≤ poll)
    (he : 0 ≤ enc) :
    clampScore (scoreExtended deg pop flood poll enc) =
      min 100 (deg * 0.35 + pop / 100 * 0.25 + flood * 2.5 * 0.20 +
        poll * 2 * 0.15 + enc * 0.05)
    ∧ 0 ≤ scoreExtended deg pop flood poll enc
    ∧ 0 ≤ clampScore (scoreExtended deg pop flood poll enc) := by
  have h2 : 0 ≤ scoreExtended deg pop flood poll enc := by
    unfold scoreExtended
    linarith
  exact ⟨rfl, h2, le_min (by norm_num) h2⟩

/-- Witness for C1 at the concrete record
`(deg, pop, flood, poll, enc) = (70, 6200, 10, 8, 35)`. -/
theorem extended_score_formula_and_clamp_witness :
    clampScore (scoreExtended 70 6200 10 8 35) =
      min 100 ((70:ℚ) * 0.35 + 6200 / 100 * 0.25 + 10 * 2.5 * 0.20 +
        8 * 2 * 0.15 + 35 * 0.05)
    ∧ 0 ≤ scoreExtended 70 6200 10 8 35
    ∧ 0 ≤ clampScore (scoreExtended 70 6200 10 8 35) :=
  extended_score_formula_and_clamp 70 6200 10 8 35 (by norm_num)
    (by norm_num) (by norm_num) (by norm_num) (by norm_num)

/-- Claim C2: the 4-tier classification assigns Critical iff `s > 75`, High
iff `55 < s ≤ 75`, Moderate iff `35 < s ≤ 55`, Low iff `s ≤ 35` (boundaries
exclusive-lower), and the score-to-status mapping is monotone: a higher score
never yields a less severe status. -/
theorem classify4_thresholds_and_monotone (s t : ℚ) (hst : s ≤ t) :
    (classify4 s = .Critical ↔ 75 < s)
    ∧ (classify4 s = .High ↔ 55 < s ∧ s ≤ 75)
    ∧ (classify4 s = .Moderate ↔ 35 < s ∧ s ≤ 55)
    ∧ (classify4 s = .Low ↔ s ≤ 35)
    ∧ sev (classify4 s) ≤ sev (classify4 t) := by
  have hC : classify4 s = Status.Critical ↔ 75 < s := by
    unfold classify4
    split_ifs with h1 h2 h3 <;> simp <;>
      first
      | exact h1
      | exact not_lt.mp h1
  have hH : classify4 s = Status.High ↔ 55 < s ∧ s ≤ 75 := by
    unfold classify4
    split_ifs with h1 h2 h3
    · exact iff_of_false (by simp) (by rintro ⟨-, hle⟩; exact absurd h1 (not_lt.mpr hle))
    · exact iff_of_true rfl ⟨h2, not_lt.mp h1⟩
    · exact iff_of_false (by simp) (by rintro ⟨h55, -⟩; exact h2 h55)
    · exact iff_of_false (by simp) (by rintro ⟨h55, -⟩; exact h2 h55)
  have hMo : classify4 s = Status.Moderate ↔ 35 < s ∧ s ≤ 55 := by
    unfold classify4
    split_ifs with h1 h2 h3
    · exact iff_of_false (by simp) (by rintro ⟨-, hle⟩; linarith)
    · exact iff_of_false (by simp) (by rintro ⟨-, hle⟩; exact absurd h2 (not_lt.mpr hle))
    · exact iff_of_true rfl ⟨h3, not_lt.mp h2⟩
    · exact iff_of_false (by simp) (by rintro ⟨h35, -⟩; exact h3 h35)
  have hL : classify4 s = Status.Low ↔ s ≤ 35 := by
    unfold classify4
    split_ifs with h1 h2 h3
    · exact iff_of_false (by simp) (by intro hle; linarith)
    · exact iff_of_false (by simp) (by intro hle; linarith)
    · exact iff_of_false (by simp) (by intro hle; linarith)
    · exact iff_of_true rfl (not_lt.mp h3)
  have hM : sev (classify4 s) ≤ sev (classify4 t) := by
    unfold classify4
    split_ifs <;> simp [sev] <;> linarith
  exact ⟨hC, hH, hMo, hL, hM⟩

/-- Witness for C2 at `s = 60`, `t = 80`. -/
theorem classify4_thresholds_and_monotone_witness :
    (classify4 60 = .Critical ↔ (75:ℚ) < 60)
    ∧ (classify4 60 = .High ↔ (55:ℚ) < 60 ∧ (60:ℚ) ≤ 75)
    ∧ (classify4 60 = .Moderate ↔ (35:ℚ) < 60 ∧ (60:ℚ) ≤ 55)
    ∧ (classify4 60 = .Low ↔ (60:ℚ) ≤ 35)
    ∧ sev (classify4 60) ≤ sev (classify4 80) :=
  classify4_thresholds_and_monotone 60 80 (by norm_num)

/-- Claim C9: with all non-degradation attributes fixed, a strictly larger
`degradation_pct` never yields a smaller score, under both the basic and the
extended preset, through the upper clamp to 100. -/
theorem score_monotone_in_degradation (dA dB pop flood poll enc : ℚ)
    (h : dB < dA) :
    clampScore (scoreExtended dB pop flood poll enc) ≤
      clampScore (scoreExtended dA pop flood poll enc)
    ∧ clampScore (scoreBasic dB pop flood) ≤
      clampScore (scoreBasic dA pop flood) := by
  unfold clampScore
  constructor
  · exact min_le_min le_rfl (by unfold scoreExtended; linarith)
  · exact min_le_min le_rfl (by unfold scoreBasic; linarith)

/-- Witness for C9 at `dA = 70 > dB = 35`, other attributes
`(pop, flood, poll, enc) = (6200, 10, 8, 35)`. -/
theorem score_monotone_in_degradation_witness :
    clampScore (scoreExtended 35 6200 10 8 35) ≤
      clampScore (scoreExtended 70 6200 10 8 35)
    ∧ clampScore (scoreBasic 35 6200 10) ≤ clampScore (scoreBasic 70 6200 10) :=
  score_monotone_in_degradation 70 35 6200 10 8 35 (by norm_num)

/-- Claim C4: the basic weighting preset is a named, selectable
configuration computing
`degradation_pct * 0.4 + (population_impact / 100) * 0.3 +
(flood_risk * 2.5) * 0.3`; on the record
`(degradation_pct, population_impact, flood_risk) = (70, 6200, 10)` it yields
54.1, and the basic 3-tier classification of 54.1 is High.
(Spec-modelled: the basic preset lives in repository iterations not under
src/.) -/
theorem basic_preset_scenario :
    score Preset.basic ⟨70, 6200, 10, 0, 0⟩ = 541/10
    ∧ scoreBasic 70 6200 10 = 541/10
    ∧ classifyBasic (541/10) = Status.High := by
  refine ⟨?_, ?_, ?_⟩
  · norm_num [score, scoreBasic]
  · norm_num [scoreBasic]
  · norm_num [classifyBasic]

/-- Claim C3: `rank` returns a permutation of its input ordered by
`Priority_Score` descending, and two records with equal `Priority_Score`
keep their relative input order (stable, deterministic tie-break): the
pre- and post-reversal of the pandas descending sort cancel on tied rows. -/
theorem rank_desc_perm_stable (l : List ScoredLake) (a b : ScoredLake)
    (hsub : [a, b] <+ l) (heq : a.Priority_Score = b.Priority_Score) :
    [a, b] <+ rank l
    ∧ (rank l).Perm l
    ∧ (rank l).Pairwise (fun x y => y.Priority_Score ≤ x.Priority_Score) := by
  have htrans : ∀ x y z : ScoredLake,
      decide (x.Priority_Score ≤ y.Priority_Score) = true →
      decide (y.Priority_Score ≤ z.Priority_Score) = true →
      decide (x.Priority_Score ≤ z.Priority_Score) = true := by
    intro x y z hxy hyz
    simp only [decide_eq_true_eq] at *
    exact le_trans hxy hyz
  have htotal : ∀ x y : ScoredLake,
      (decide (x.Priority_Score ≤ y.Priority_Score) ||
        decide (y.Priority_Score ≤ x.Priority_Score)) = true := by
    intro x y
    simp only [Bool.or_eq_true, decide_eq_true_eq]
    exact le_total _ _
  refine ⟨?_, ?_, ?_⟩
  · have hpw : ([b, a]).Pairwise
        (fun x y : ScoredLake => decide (x.Priority_Score ≤ y.Priority_Score) = true) := by
      simp [List.pairwise_cons, heq]
    have hsub2 : [b, a] <+ l.reverse := by
      have h := List.reverse_sublist.mpr hsub
      simpa using h
    have h2 := List.sublist_mergeSort htrans htotal hpw hsub2
    have h3 := List.reverse_sublist.mpr h2
    unfold rank
    simpa using h3
  · unfold rank
    exact (List.reverse_perm _).trans
      ((List.mergeSort_perm _ _).trans (List.reverse_perm l))
  · unfold rank
    rw [List.pairwise_reverse]
    exact (List.sorted_mergeSort htrans htotal l.reverse).imp
      (fun h => decide_eq_true_eq.mp h)

/-- Witness for C3 at a concrete tied pair: two records with equal
`Priority_Score` (50) stay in input order in the ranked output. -/
theorem rank_desc_perm_stable_witness :
    [(⟨"A", 0, 0, 0, 0, 0, 0, 0, 0, 50, 0, .Moderate⟩ : ScoredLake),
     ⟨"B", 0, 0, 0, 0, 0, 0, 0, 0, 50, 0, .Moderate⟩] <+
      rank [⟨"A", 0, 0, 0, 0, 0, 0, 0, 0, 50, 0, .Moderate⟩,
            ⟨"B", 0, 0, 0, 0, 0, 0, 0, 0, 50, 0, .Moderate⟩]
    ∧ (rank [⟨"A", 0, 0, 0, 0, 0, 0, 0, 0, 50, 0, .Moderate⟩,
             ⟨"B", 0, 0, 0, 0, 0, 0, 0, 0, 50, 0, .Moderate⟩]).Perm
        [⟨"A", 0, 0, 0, 0, 0, 0, 0, 0, 50, 0, .Moderate⟩,
         ⟨"B", 0, 0, 0, 0, 0, 0, 0, 0, 50, 0, .Moderate⟩]
    ∧ (rank [⟨"A", 0, 0, 0, 0, 0, 0, 0, 0, 50, 0, .Moderate⟩,
             ⟨"B", 0, 0, 0, 0, 0, 0, 0, 0, 50, 0, .Moderate⟩]).Pairwise
        (fun x y => y.Priority_Score ≤ x.Priority_Score) :=
  rank_desc_perm_stable _ _ _ (List.Sublist.refl _) rfl

/-- Claim C5: the ranking computation is deterministic — with the random
draws fixed (randomness enters only as the explicit draw input of
`generate_comprehensive_data`, never inside score/classify/rank), two
invocations on the same inputs produce identical output sequences. -/
theorem rank_deterministic (lakes : List LakeIn) (draws₁ draws₂ : List ℚ)
    (h : draws₁ = draws₂) :
    rank (generate_comprehensive_data lakes draws₁) =
      rank (generate_comprehensive_data lakes draws₂) := by
  rw [h]

/-- Witness for C5 at a concrete catalog entry and draw. -/
theorem rank_deterministic_witness :
    rank (generate_comprehensive_data [⟨"L", 100, 100, 0, 1, 1⟩] [20]) =
      rank (generate_comprehensive_data [⟨"L", 100, 100, 0, 1, 1⟩] [20]) :=
  rank_deterministic [⟨"L", 100, 100, 0, 1, 1⟩] [20] [20] rfl

/-- Claim C10: the status label is computed from the unrounded clamped
priority score while the reported `Priority_Score` is rounded to one
decimal; at the concrete input below the raw score is 75.04, reported as
75.0 with status Critical, although the threshold rule assigns High to a
score of exactly 75. -/
theorem status_from_unrounded_score_mismatch :
    (∀ (lake : LakeIn) (d : ℚ),
      (processLake lake d).status = classify4 (priorityOf lake d)
      ∧ (processLake lake d).Priority_Score = rnd1 (priorityOf lake d))
    ∧ (processLake ⟨"L", 100, 16716, 0, 0, 0⟩ 64).status = Status.Critical
    ∧ (processLake ⟨"L", 100, 16716, 0, 0, 0⟩ 64).Priority_Score = 75
    ∧ classify4 75 = Status.High := by
  have hdeg : degradationOf ⟨"L", 100, 16716, 0, 0, 0⟩ 64 = 95 := by
    unfold degradationOf
    norm_num
  have hpri : priorityOf ⟨"L", 100, 16716, 0, 0, 0⟩ 64 = 7504/100 := by
    unfold priorityOf clampScore scoreExtended
    rw [hdeg]
    norm_num
  have hrnd : rnd1 (7504/100) = 75 := by
    have h10 : (10:ℚ) * (7504/100) = 3752/5 := by norm_num
    have hf : ⌊(3752:ℚ)/5⌋ = 750 := by
      rw [Int.floor_eq_iff]
      norm_num
    rw [rnd1, h10, roundHalfEven, hf]
    norm_num
  refine ⟨fun lake d => ⟨rfl, rfl⟩, ?_, ?_, ?_⟩
  · show classify4 (priorityOf _ _) = _
    rw [hpri]
    norm_num [classify4]
  · show rnd1 (priorityOf _ _) = 75
    rw [hpri, hrnd]
  · norm_num [classify4]

/-- Counterexample to claim C6: over the ranked sequence whose only status
is Critical, `value_counts` returns only the Critical entry — the absent
labels (e.g. Low) are omitted instead of being reported with count 0. -/
theorem value_counts_omits_absent_cx :
    value_counts [Status.Critical] = [(Status.Critical, 1)]
    ∧ Status.Low ∉ (value_counts [Status.Critical]).map Prod.fst := by
  have h : value_counts [Status.Critical] = [(Status.Critical, 1)] := by
    simp [value_counts, List.mergeSort]
  refine ⟨h, ?_⟩
  rw [h]
  simp

/-- Claim C6 as amended: `value_counts` over a ranked status column returns
exactly one entry per status value that occurs (absent labels are omitted),
each count positive and equal to the number of occurrences of the label, and the
counts sum to the length of the sequence. -/
theorem value_counts_support_and_sum (l : List Status) :
    ((value_counts l).map Prod.fst).Perm l.dedup
    ∧ (∀ p ∈ value_counts l, 0 < p.2 ∧ p.2 = l.count p.1)
    ∧ ((value_counts l).map Prod.snd).sum = l.length := by
  have hperm : (value_counts l).Perm (l.dedup.map (fun s => (s, l.count s))) := by
    unfold value_counts
    exact (List.reverse_perm _).trans
      ((List.mergeSort_perm _ _).trans (List.reverse_perm _))
  refine ⟨?_, ?_, ?_⟩
  · have h := hperm.map Prod.fst
    simpa [Function.comp_def] using h
  · intro p hp
    have hp' : p ∈ l.dedup.map (fun s => (s, l.count s)) := hperm.mem_iff.mp hp
    obtain ⟨s, hs, rfl⟩ := List.mem_map.mp hp'
    exact ⟨List.count_pos_iff.mpr (List.mem_dedup.mp hs), rfl⟩
  · have h := (hperm.map Prod.snd).sum_eq
    rw [h, List.map_map]
    simpa using List.sum_map_count_dedup_eq_length l

/-- Witness for the amended C6 at the column `[Critical, Critical, Low]`. -/
theorem value_counts_support_and_sum_witness :
    ((value_counts [Status.Critical, Status.Critical, Status.Low]).map
      Prod.fst).Perm ([Status.Critical, Status.Critical, Status.Low]).dedup
    ∧ (∀ p ∈ value_counts [Status.Critical, Status.Critical, Status.Low],
        0 < p.2 ∧ p.2 = ([Status.Critical, Status.Critical, Status.Low]).count p.1)
    ∧ ((value_counts [Status.Critical, Status.Critical, Status.Low]).map
        Prod.snd).sum = ([Status.Critical, Status.Critical, Status.Low]).length :=
  value_counts_support_and_sum [Status.Critical, Status.Critical, Status.Low]

/-- Counterexample to claim C7: on the empty collection,
`average_degradation` does not raise an error — it returns the value NaN
(which is also not the numeric value 0). -/
theorem average_degradation_empty_cx :
    average_degradation [] = MeanResult.nan
    ∧ MeanResult.nan ≠ MeanResult.val 0 :=
  ⟨rfl, by simp⟩

/-- Claim C7 as amended: on a non-empty collection `average_degradation`
returns the arithmetic mean of the `Degradation_%` column; on the empty
collection it returns NaN — a value distinct from any valid numeric mean
such as zero — rather than raising an error. -/
theorem average_degradation_mean_or_nan (df : List ScoredLake)
    (h : df ≠ []) :
    average_degradation df =
      MeanResult.val ((df.map (·.Degradation_pct)).sum / (df.length : ℚ))
    ∧ average_degradation [] = MeanResult.nan := by
  constructor
  · unfold average_degradation series_mean
    rw [if_neg (by simpa using h)]
    simp
  · rfl

/-- Witness for the amended C7 at a concrete one-row collection. -/
theorem average_degradation_mean_or_nan_witness :
    average_degradation [⟨"A", 0, 0, 0, 0, 0, 0, 0, 0, 50, 0, .Moderate⟩] =
      MeanResult.val
        (([(⟨"A", 0, 0, 0, 0, 0, 0, 0, 0, 50, 0, .Moderate⟩ : ScoredLake)].map
          (·.Degradation_pct)).sum /
        (([(⟨"A", 0, 0, 0, 0, 0, 0, 0, 0, 50, 0, .Moderate⟩ : ScoredLake)].length : ℚ)))
    ∧ average_degradation [] = MeanResult.nan :=
  average_degradation_mean_or_nan
    [⟨"A", 0, 0, 0, 0, 0, 0, 0, 0, 50, 0, .Moderate⟩] (by simp)

/-- Counterexample to claim C8: for the one-lake collection below (draw 20)
the summed column equals 23.6 — the per-record difference
`area_2019 - area_2024 = 23.65` is rounded to one decimal before summation,
so the total does not equal the sum of raw differences. -/
theorem total_area_lost_not_raw_cx :
    total_area_lost (generate_comprehensive_data [⟨"L", 100, 100, 0, 1, 1⟩] [20]) =
      236/10
    ∧ total_area_lost_raw_spec [⟨"L", 100, 100, 0, 1, 1⟩] [20] = 2365/100
    ∧ total_area_lost
        (generate_comprehensive_data [⟨"L", 100, 100, 0, 1, 1⟩] [20]) ≠
      total_area_lost_raw_spec [⟨"L", 100, 100, 0, 1, 1⟩] [20] := by
  have hdeg : degradationOf ⟨"L", 100, 100, 0, 1, 1⟩ 20 = 2365/100 := by
    unfold degradationOf
    norm_num
  have harea : area2024Of ⟨"L", 100, 100, 0, 1, 1⟩ 20 = 7635/100 := by
    unfold area2024Of
    rw [hdeg]
    norm_num
  have hrnd : rnd1 (2365/100) = 236/10 := by
    have h10 : (10:ℚ) * (2365/100) = 473/2 := by norm_num
    have hf : ⌊(473:ℚ)/2⌋ = 236 := by
      rw [Int.floor_eq_iff]
      norm_num
    rw [rnd1, h10, roundHalfEven, hf]
    norm_num [Int.even_iff]
  have h1 : total_area_lost
      (generate_comprehensive_data [⟨"L", 100, 100, 0, 1, 1⟩] [20]) = 236/10 := by
    show rnd1 (100 - area2024Of ⟨"L", 100, 100, 0, 1, 1⟩ 20) + 0 = 236/10
    rw [harea, show (100:ℚ) - 7635/100 = 2365/100 from by norm_num, hrnd]
    norm_num
  have h2 : total_area_lost_raw_spec [⟨"L", 100, 100, 0, 1, 1⟩] [20] = 2365/100 := by
    show 100 - area2024Of ⟨"L", 100, 100, 0, 1, 1⟩ 20 + 0 = 2365/100
    rw [harea]
    norm_num
  refine ⟨h1, h2, ?_⟩
  rw [h1, h2]
  norm_num

/-- Claim C8 as amended: `total_area_lost` equals the sum over records of
`round(area_2019 - area_2024, 1)` — the per-record differences are rounded
to one decimal as stored in `Area_Lost_ha`, and they are not clamped to
zero before summation: any difference at most -0.1 contributes a strictly
negative term. -/
theorem total_area_lost_rounded_sum (lakes : List LakeIn) (draws : List ℚ)
    (x : ℚ) (hx : x ≤ -(1/10)) :
    total_area_lost (generate_comprehensive_data lakes draws) =
      (List.zipWith (fun lk d => rnd1 (lk.area_2019 - area2024Of lk d))
        lakes draws).sum
    ∧ rnd1 x < 0 := by
  constructor
  · unfold total_area_lost generate_comprehensive_data
    rw [List.map_zipWith]
    rfl
  · unfold rnd1 roundHalfEven
    have h10 : 10 * x ≤ -1 := by linarith
    have hfl := Int.floor_le (10 * x)
    split_ifs with hb1 hb2 hb3 <;> push_cast <;> linarith

/-- Witness for the amended C8 at the empty collection and `x = -1`. -/
theorem total_area_lost_rounded_sum_witness :
    total_area_lost (generate_comprehensive_data [] []) =
      (List.zipWith (fun lk d => rnd1 (lk.area_2019 - area2024Of lk d))
        ([] : List LakeIn) ([] : List ℚ)).sum
    ∧ rnd1 (-1) < 0 :=
  total_area_lost_rounded_sum [] [] (-1) (by norm_num)

end NeerChitra
